import Mathlib

/-!
# stock_app — verification of the NISA projection/allocation core

Shallow embedding of the tax-advantaged-account allocation logic of the
`stock_app` repository.  The authoritative source for the allocation and
plan-derivation computations is the frontend memo `nisaAnnualEligible`
(and the `totals` memo) in `frontend/src/pages` (plans page), and the two
form validators (`ProjectionForm.handleSubmit`, `PlansForm.validateForm`).
Amounts are JavaScript numbers; they are embedded as rationals (`ℚ`), and
`Number.POSITIVE_INFINITY` appearing via `?? Infinity` on possibly-absent
lifetime-remaining fields is embedded as `Option ℚ` with `none` playing ∞.
The year-by-year projection engine lives in the (excluded) backend; it is
modelled from the spec where claims need it.
-/

namespace StockApp

/-- `target_account_type` of a recurring plan (closed union in the source). -/
inductive AccountType where
  | NISA_TSUMITATE
  | NISA_GROWTH
  | GENERAL
deriving DecidableEq, Repr

/-- `frequency` of a recurring plan (closed union in the source). -/
inductive Frequency where
  | DAILY
  | MONTHLY
  | BONUS_MONTH
deriving DecidableEq, Repr

/-- `RecurringInvestmentPlan` (the fields the computations read).
`amount_jpy` is the already-numeric amount (the source coerces with
`parseFloat` when it is not a number); `bonus_months` is the raw
comma-separated string, `none` embedding `null`/absent. -/
structure RecurringInvestmentPlan where
  target_account_type : AccountType
  target_asset_class : String
  target_asset_region : String
  frequency : Frequency
  amount_jpy : ℚ
  bonus_months : Option String
deriving DecidableEq, Repr

/-- `isCrypto` from the source:
`plan.target_asset_region === "CRYPTOCURRENCY" || plan.target_asset_class === "CRYPTOCURRENCY"`. -/
def isCrypto (p : RecurringInvestmentPlan) : Bool :=
  p.target_asset_region == "CRYPTOCURRENCY" || p.target_asset_class == "CRYPTOCURRENCY"

/-- `tradingDaysPerYear = isCrypto ? 365 : 245` from the source. -/
def tradingDaysPerYear (p : RecurringInvestmentPlan) : ℚ :=
  if isCrypto p then 365 else 245

/-- JavaScript whitespace stripped by `String.prototype.trim` (the subset
relevant to the bonus-month strings). -/
def isJsWhitespace (c : Char) : Bool :=
  c = ' ' || c = '\t' || c = '\n' || c = '\r'

/-- `String.prototype.trim` on a character list: drop leading and trailing
whitespace. -/
def jsTrim (l : List Char) : List Char :=
  ((l.dropWhile isJsWhitespace).reverse.dropWhile isJsWhitespace).reverse

/-- `String.prototype.split(",")` on a character list.  On the empty string it
returns `[""]`, exactly as in JavaScript. -/
def splitOnComma : List Char → List (List Char)
  | [] => [[]]
  | c :: rest =>
    let r := splitOnComma rest
    if c = ',' then [] :: r
    else
      match r with
      | [] => [[c]]
      | h :: t => (c :: h) :: t

/-- `bonus_months.split(",").map(m => m.trim()).filter(Boolean).length` from the
source, guarded by JavaScript truthiness of `plan.bonus_months`
(`null`/absent and `""` both yield 0). -/
def bonusCount : Option String → ℕ
  | none => 0
  | some s =>
    if s = "" then 0
    else (((splitOnComma s.data).map jsTrim).filter (fun m => !m.isEmpty)).length

/-- The per-plan annual contribution `annualAmount` switch from the source
(`DAILY`: amount × tradingDaysPerYear; `MONTHLY`: amount × 12;
`BONUS_MONTH`: amount × bonusCount). -/
def planAnnualAmount (p : RecurringInvestmentPlan) : ℚ :=
  match p.frequency with
  | .DAILY => p.amount_jpy * tradingDaysPerYear p
  | .MONTHLY => p.amount_jpy * 12
  | .BONUS_MONTH => p.amount_jpy * (bonusCount p.bonus_months : ℚ)

/-- Does the plan target the tsumitate (TypeA) bucket? -/
def isTsumitate (p : RecurringInvestmentPlan) : Bool :=
  p.target_account_type == .NISA_TSUMITATE

/-- Does the plan target the growth (TypeB) bucket? -/
def isGrowth (p : RecurringInvestmentPlan) : Bool :=
  p.target_account_type == .NISA_GROWTH

/-- `annualPlan.tsumitate`: the source's accumulation of `annualAmount` over
plans with `target_account_type === "NISA_TSUMITATE"`. -/
def annualPlanTsumitate (plans : List RecurringInvestmentPlan) : ℚ :=
  plans.foldl (fun acc p => if isTsumitate p then acc + planAnnualAmount p else acc) 0

/-- `annualPlan.growth`: the source's accumulation of `annualAmount` over
plans with `target_account_type === "NISA_GROWTH"`. -/
def annualPlanGrowth (plans : List RecurringInvestmentPlan) : ℚ :=
  plans.foldl (fun acc p => if isGrowth p then acc + planAnnualAmount p else acc) 0

/-- Contributions targeting the unrestricted (`GENERAL`) bucket; never capped. -/
def annualPlanGeneral (plans : List RecurringInvestmentPlan) : ℚ :=
  plans.foldl
    (fun acc p => if !isTsumitate p && !isGrowth p then acc + planAnnualAmount p else acc) 0

/-- The lifetime remaining-room inputs read from the NISA usage response:
`nisa.lifetime.growth?.remaining ?? Infinity` and
`nisa.lifetime.total?.remaining ?? Infinity`.  `none` embeds the absent case,
i.e. positive infinity. -/
structure LifetimeRem where
  growth : Option ℚ
  total : Option ℚ
deriving DecidableEq, Repr

/-- `Math.min a b` where `b` may be `Infinity` (`none`). -/
def minq (a : ℚ) (b : Option ℚ) : ℚ :=
  match b with
  | none => a
  | some x => min a x

/-- Static annual cap of the tsumitate bucket (`ANNUAL_CAP.tsumitate`). -/
def ANNUAL_CAP_tsumitate : ℚ := 1200000

/-- Static annual cap of the growth bucket (`ANNUAL_CAP.growth`). -/
def ANNUAL_CAP_growth : ℚ := 2400000

/-- Static annual cap on the two buckets combined (`ANNUAL_CAP.total`). -/
def ANNUAL_CAP_total : ℚ := 3600000

/-- The effective annual caps of the allocation call. -/
structure EffectiveCaps where
  tsumitate : ℚ
  growth : ℚ
  total : ℚ
deriving DecidableEq, Repr

/-- `effectiveCaps` from the source:
`tsumitate = Math.min(ANNUAL_CAP.tsumitate, lifetimeRem.total)`,
`growth = Math.min(ANNUAL_CAP.growth, lifetimeRem.growth, lifetimeRem.total)`,
`total = Math.min(ANNUAL_CAP.total, lifetimeRem.total)`. -/
def effectiveCaps (rem : LifetimeRem) : EffectiveCaps where
  tsumitate := minq ANNUAL_CAP_tsumitate rem.total
  growth := minq (minq ANNUAL_CAP_growth rem.growth) rem.total
  total := minq ANNUAL_CAP_total rem.total

/-- Result of one allocation call. -/
structure NisaAllocation where
  tsumitateEligible : ℚ
  growthEligible : ℚ
  totalEligible : ℚ
deriving DecidableEq, Repr

/-- The allocation section of `nisaAnnualEligible`: take the total cap first,
credit tsumitate up to `min(planned.tsumitate, effectiveCaps.tsumitate,
totalCapLeft)`, subtract it from `totalCapLeft`, then credit growth up to
`min(planned.growth, effectiveCaps.growth, totalCapLeft)`. -/
def nisaAllocate (rem : LifetimeRem) (plannedTsumitate plannedGrowth : ℚ) : NisaAllocation :=
  let caps := effectiveCaps rem
  let totalCapLeft := caps.total
  let tsumitateEligible := min plannedTsumitate (min caps.tsumitate totalCapLeft)
  let totalCapLeft2 := totalCapLeft - tsumitateEligible
  let growthEligible := min plannedGrowth (min caps.growth totalCapLeft2)
  { tsumitateEligible := tsumitateEligible
    growthEligible := growthEligible
    totalEligible := tsumitateEligible + growthEligible }

/-- The full `nisaAnnualEligible` pipeline: sum the plans' annual amounts per
NISA bucket, then allocate against the lifetime remaining room. -/
def nisaAnnualEligible (rem : LifetimeRem) (plans : List RecurringInvestmentPlan) :
    NisaAllocation :=
  nisaAllocate rem (annualPlanTsumitate plans) (annualPlanGrowth plans)

/-- Value of a leading run of decimal digits, `none` when there is no digit
(i.e. `parseInt` yields `NaN`). -/
def digitsPrefixVal (l : List Char) : Option ℕ :=
  let ds := l.takeWhile Char.isDigit
  if ds.isEmpty then none
  else some (ds.foldl (fun acc c => acc * 10 + (c.toNat - 48)) 0)

/-- `parseInt(s, 10)` on an already-trimmed token: optional sign, then the
leading digit run; `none` embeds `NaN`. -/
def jsParseInt (l : List Char) : Option ℤ :=
  match l with
  | '-' :: rest => (digitsPrefixVal rest).map (fun n => -(n : ℤ))
  | '+' :: rest => (digitsPrefixVal rest).map (fun n => (n : ℤ))
  | _ => (digitsPrefixVal l).map (fun n => (n : ℤ))

/-- The fields of the plans form that `validateForm` reads.  `end_date = ""`
embeds an absent end date. -/
structure PlanFormData where
  amount_jpy : ℚ
  start_date : String
  end_date : String
  frequency : Frequency
  bonus_months : String
deriving DecidableEq, Repr

/-- The bonus-months loop of `validateForm`: split on commas, `parseInt` each
trimmed token, and flag a `NaN` or a value outside `[1, 12]`. -/
def bonusMonthOutOfRange (s : String) : Bool :=
  ((splitOnComma s.data).map (fun m => jsParseInt (jsTrim m))).any
    (fun v =>
      match v with
      | none => true
      | some n => decide (n < 1 ∨ 12 < n))

/-- Is the frequency `BONUS_MONTH`? -/
def isBonusFreq : Frequency → Bool
  | .BONUS_MONTH => true
  | _ => false

/-- `PlansForm.validateForm`: `true` iff no error is recorded, i.e. the form
submits.  Errors: `amount_jpy <= 0`; empty `start_date`; `end_date` before
`start_date` when both present; for `BONUS_MONTH` frequency, an empty
`bonus_months` string or any token that is `NaN` or outside `[1, 12]`. -/
def validateForm (f : PlanFormData) : Bool :=
  !(decide (f.amount_jpy ≤ 0)
    || f.start_date == ""
    || (f.end_date != "" && f.start_date != "" && decide (f.end_date < f.start_date))
    || (isBonusFreq f.frequency && (f.bonus_months == "" || bonusMonthOutOfRange f.bonus_months)))

/-- `ProjectionForm.handleSubmit` validation: `projection_years` must be
truthy (nonzero) and within `[1, 50]`, `annual_return_rate` within
`[-100, 100]` (the rate is a number here, so the source's `=== null` check is
vacuous). -/
def projectionParamsValid (projectionYears annualReturnRate : ℚ) : Bool :=
  !(decide (projectionYears = 0) || decide (projectionYears < 1)
      || decide (50 < projectionYears))
  && !(decide (annualReturnRate < -100) || decide (100 < annualReturnRate))

/-- `ProjectionForm.handleSubmit`: `onSubmit` receives the payload only when
validation passes; on failure nothing is submitted, so no projection
computation can start and no partial result exists. -/
def handleProjectionSubmit (projectionYears annualReturnRate : ℚ) : Option (ℚ × ℚ) :=
  if projectionParamsValid projectionYears annualReturnRate then
    some (projectionYears, annualReturnRate)
  else none

/-! ## Projection engine

The year-by-year projection engine runs in the excluded backend; only its API
document and the spec describe it.  The definitions below are therefore
modelled from the spec (§4.2 of the design spec and the projection API
document), reusing the allocation computation embedded from the frontend
source above. -/

/-- Modelled from the spec: lifetime cap of the growth bucket (12,000,000,
the backend engine's ledger constant; the engine itself is not in the
frontend sources). -/
def LIFETIME_CAP_growth : ℚ := 12000000

/-- Modelled from the spec: lifetime cap on both buckets combined
(18,000,000; the backend engine is not in the frontend sources). -/
def LIFETIME_CAP_total : ℚ := 18000000

/-- Modelled from the spec: the AllocationLedger state — cumulative lifetime
usage of the growth bucket and of both buckets combined, carried across
projection years (the tsumitate bucket has no lifetime cap of its own). -/
structure Ledger where
  usedGrowth : ℚ
  usedTotal : ℚ
deriving DecidableEq, Repr

/-- The lifetime remaining room the ledger presents to an allocation call. -/
def ledgerRem (l : Ledger) : LifetimeRem where
  growth := some (LIFETIME_CAP_growth - l.usedGrowth)
  total := some (LIFETIME_CAP_total - l.usedTotal)

/-- One emitted year record (the fields the claims speak about). -/
structure YearRecord where
  year : ℕ
  startingBalance : ℚ
  contributions : ℚ
  balanceBeforeGrowth : ℚ
  endingBalance : ℚ
  interestEarned : ℚ
  tsumitateUsed : ℚ
  growthUsed : ℚ
  capTsumitate : ℚ
  capGrowth : ℚ
  capTotal : ℚ
  lifetimeGrowthUsed : ℚ
  lifetimeTotalUsed : ℚ
deriving DecidableEq, Repr

/-- Modelled from the spec: one iteration of the projection loop (backend
engine, not in the frontend sources) — derive the per-bucket annual
contributions, allocate through the ledger, treat overflow and unrestricted
contributions as credited to the balance, apply annual compound growth, and
advance the ledger. `rate` is the growth fraction (e.g. 0.05). -/
def projStep (plans : List RecurringInvestmentPlan) (rate : ℚ) (yr : ℕ) (bal : ℚ)
    (l : Ledger) : YearRecord × ℚ × Ledger :=
  let a := annualPlanTsumitate plans
  let b := annualPlanGrowth plans
  let u := annualPlanGeneral plans
  let caps := effectiveCaps (ledgerRem l)
  let alloc := nisaAllocate (ledgerRem l) a b
  let overflow := (a - alloc.tsumitateEligible) + (b - alloc.growthEligible)
  let contributions := alloc.totalEligible + overflow + u
  let bbg := bal + contributions
  let ending := bbg * (1 + rate)
  let l' : Ledger := ⟨l.usedGrowth + alloc.growthEligible, l.usedTotal + alloc.totalEligible⟩
  ({ year := yr
     startingBalance := bal
     contributions := contributions
     balanceBeforeGrowth := bbg
     endingBalance := ending
     interestEarned := ending - bbg
     tsumitateUsed := alloc.tsumitateEligible
     growthUsed := alloc.growthEligible
     capTsumitate := caps.tsumitate
     capGrowth := caps.growth
     capTotal := caps.total
     lifetimeGrowthUsed := l'.usedGrowth
     lifetimeTotalUsed := l'.usedTotal }, ending, l')

/-- Modelled from the spec: the linear year loop of the projection engine
(backend, not in the frontend sources), threading balance and ledger. -/
def runYears (plans : List RecurringInvestmentPlan) (rate : ℚ) :
    ℕ → ℕ → ℚ → Ledger → List YearRecord × ℚ × Ledger
  | 0, _, bal, l => ([], bal, l)
  | n + 1, yr, bal, l =>
    let s := projStep plans rate yr bal l
    let r := runYears plans rate n (yr + 1) s.2.1 s.2.2
    (s.1 :: r.1, r.2)

/-- The projection aggregate. -/
structure ProjectionResult where
  startingBalance : ℚ
  totalContributions : ℚ
  totalInterest : ℚ
  finalValue : ℚ
  yearRecords : List YearRecord
deriving Repr

/-- Modelled from the spec: `runProjection` — iterate the year loop from year
1, then aggregate totals and the final value (backend engine, not in the
frontend sources). -/
def runProjection (plans : List RecurringInvestmentPlan) (startBal : ℚ) (years : ℕ)
    (rate : ℚ) (l₀ : Ledger) : ProjectionResult :=
  let r := runYears plans rate years 1 startBal l₀
  { startingBalance := startBal
    totalContributions := (r.1.map YearRecord.contributions).sum
    totalInterest := (r.1.map YearRecord.interestEarned).sum
    finalValue := r.2.1
    yearRecords := r.1 }

/-! ## Basic allocation lemmas (shared) -/

theorem minq_le_left (a : ℚ) (b : Option ℚ) : minq a b ≤ a := by
  cases b with
  | none => exact le_refl a
  | some x => exact min_le_left a x

theorem minq_nonneg {a : ℚ} {b : Option ℚ} (h0 : 0 ≤ a)
    (hb : ∀ x, b = some x → 0 ≤ x) : 0 ≤ minq a b := by
  cases b with
  | none => exact h0
  | some x => exact le_min h0 (hb x rfl)

theorem effectiveCaps_tsumitate_nonneg {rem : LifetimeRem}
    (ht : ∀ x, rem.total = some x → 0 ≤ x) : 0 ≤ (effectiveCaps rem).tsumitate :=
  minq_nonneg (by norm_num [ANNUAL_CAP_tsumitate]) ht

theorem effectiveCaps_growth_nonneg {rem : LifetimeRem}
    (hg : ∀ x, rem.growth = some x → 0 ≤ x)
    (ht : ∀ x, rem.total = some x → 0 ≤ x) : 0 ≤ (effectiveCaps rem).growth :=
  minq_nonneg (minq_nonneg (by norm_num [ANNUAL_CAP_growth]) hg) ht

theorem effectiveCaps_total_nonneg {rem : LifetimeRem}
    (ht : ∀ x, rem.total = some x → 0 ≤ x) : 0 ≤ (effectiveCaps rem).total :=
  minq_nonneg (by norm_num [ANNUAL_CAP_total]) ht

theorem nisaAllocate_t_eq (rem : LifetimeRem) (a b : ℚ) :
    (nisaAllocate rem a b).tsumitateEligible
      = min a (min (effectiveCaps rem).tsumitate (effectiveCaps rem).total) := rfl

theorem nisaAllocate_g_eq (rem : LifetimeRem) (a b : ℚ) :
    (nisaAllocate rem a b).growthEligible
      = min b (min (effectiveCaps rem).growth
          ((effectiveCaps rem).total - (nisaAllocate rem a b).tsumitateEligible)) := rfl

theorem nisaAllocate_total_eq (rem : LifetimeRem) (a b : ℚ) :
    (nisaAllocate rem a b).totalEligible
      = (nisaAllocate rem a b).tsumitateEligible + (nisaAllocate rem a b).growthEligible := rfl

theorem nisaAllocate_t_le_planned (rem : LifetimeRem) (a b : ℚ) :
    (nisaAllocate rem a b).tsumitateEligible ≤ a := min_le_left _ _

theorem nisaAllocate_g_le_planned (rem : LifetimeRem) (a b : ℚ) :
    (nisaAllocate rem a b).growthEligible ≤ b := min_le_left _ _

theorem nisaAllocate_t_le_cap (rem : LifetimeRem) (a b : ℚ) :
    (nisaAllocate rem a b).tsumitateEligible ≤ (effectiveCaps rem).tsumitate :=
  le_trans (min_le_right _ _) (min_le_left _ _)

theorem nisaAllocate_g_le_cap (rem : LifetimeRem) (a b : ℚ) :
    (nisaAllocate rem a b).growthEligible ≤ (effectiveCaps rem).growth :=
  le_trans (min_le_right _ _) (min_le_left _ _)

theorem nisaAllocate_t_le_total_cap (rem : LifetimeRem) (a b : ℚ) :
    (nisaAllocate rem a b).tsumitateEligible ≤ (effectiveCaps rem).total :=
  le_trans (min_le_right _ _) (min_le_right _ _)

theorem nisaAllocate_sum_le_total_cap (rem : LifetimeRem) (a b : ℚ) :
    (nisaAllocate rem a b).tsumitateEligible + (nisaAllocate rem a b).growthEligible
      ≤ (effectiveCaps rem).total := by
  have hg : (nisaAllocate rem a b).growthEligible
      ≤ (effectiveCaps rem).total - (nisaAllocate rem a b).tsumitateEligible :=
    le_trans (min_le_right _ _) (min_le_right _ _)
  linarith

/-! ## Claim theorems: allocation -/

/-- C1.  TypeA (tsumitate) is allocated first, up to
`min(proposed.typeA, effectiveCap.tsumitate, remaining shared total budget)`;
the shared total budget is decremented by the credited amount before TypeB
(growth) is allocated up to
`min(proposed.typeB, effectiveCap.growth, remaining budget)`; and under
contention, whenever `min(proposed.typeA, effectiveCap.typeA)` fits in the
shared budget, TypeA is credited exactly that amount — it is never starved to
benefit TypeB. -/
theorem typeA_allocated_first (rem : LifetimeRem) (a b : ℚ) (_ha : 0 ≤ a) (_hb : 0 ≤ b) :
    (nisaAllocate rem a b).tsumitateEligible
        = min a (min (effectiveCaps rem).tsumitate (effectiveCaps rem).total) ∧
    (nisaAllocate rem a b).growthEligible
        = min b (min (effectiveCaps rem).growth
            ((effectiveCaps rem).total - (nisaAllocate rem a b).tsumitateEligible)) ∧
    (min a (effectiveCaps rem).tsumitate ≤ (effectiveCaps rem).total →
      (nisaAllocate rem a b).tsumitateEligible = min a (effectiveCaps rem).tsumitate) := by
  refine ⟨rfl, rfl, fun h => ?_⟩
  rw [nisaAllocate_t_eq, ← min_assoc]
  exact min_eq_left h

/-- Witness for `typeA_allocated_first` at
`rem = ⟨some 1000000, some 2000000⟩`, proposed `(1500000, 1000000)`:
TypeA is credited `min 1500000 1200000 = 1200000` even though TypeB then only
gets the leftover shared budget. -/
theorem typeA_allocated_first_witness :
    (nisaAllocate ⟨some 1000000, some 2000000⟩ 1500000 1000000).tsumitateEligible
      = min 1500000 (effectiveCaps ⟨some 1000000, some 2000000⟩).tsumitate :=
  (typeA_allocated_first ⟨some 1000000, some 2000000⟩ 1500000 1000000
      (by norm_num) (by norm_num)).2.2
    (by norm_num [effectiveCaps, minq, ANNUAL_CAP_tsumitate, ANNUAL_CAP_total])

/-- C2.  The effective annual caps are
`min(staticAnnualCap[bucket], remainingLifetimeCap[bucket],
remainingLifetimeCap[total])`, where the tsumitate bucket has no lifetime cap
of its own (its term is ∞, so it drops out of the `min`); in particular a
growth bucket whose lifetime room is exhausted (remaining 0) gets effective
annual cap 0 regardless of its static annual cap of 2,400,000. -/
theorem effective_cap_formula (g t : ℚ) (ht : 0 ≤ t) :
    effectiveCaps ⟨some g, some t⟩
        = ⟨min ANNUAL_CAP_tsumitate t, min (min ANNUAL_CAP_growth g) t,
            min ANNUAL_CAP_total t⟩ ∧
    (effectiveCaps ⟨some 0, some t⟩).growth = 0 := by
  constructor
  · rfl
  · show min (min ANNUAL_CAP_growth 0) t = 0
    rw [min_eq_right (by norm_num [ANNUAL_CAP_growth] : (0 : ℚ) ≤ ANNUAL_CAP_growth)]
    exact min_eq_left ht

/-- Witness for `effective_cap_formula` at lifetime-growth remaining 0 and
lifetime-total remaining 10,000,000: the growth bucket's effective annual cap
is 0. -/
theorem effective_cap_formula_witness :
    (effectiveCaps ⟨some 0, some 10000000⟩).growth = 0 :=
  (effective_cap_formula 0 10000000 (by norm_num)).2

/-- C7.  The allocation operation is a total function with no error outcome:
with non-negative proposed amounts (and a well-formed ledger, whose remaining
lifetime room is non-negative where present), both credited amounts are
non-negative, the overflow `(proposed − credited)` summed over buckets is
non-negative, and credited plus overflow equals the proposed total. -/
theorem allocation_conserves (rem : LifetimeRem) (a b : ℚ) (ha : 0 ≤ a) (hb : 0 ≤ b)
    (hg : ∀ x, rem.growth = some x → 0 ≤ x)
    (ht : ∀ x, rem.total = some x → 0 ≤ x) :
    0 ≤ (nisaAllocate rem a b).tsumitateEligible ∧
    0 ≤ (nisaAllocate rem a b).growthEligible ∧
    0 ≤ (a - (nisaAllocate rem a b).tsumitateEligible)
        + (b - (nisaAllocate rem a b).growthEligible) ∧
    ((nisaAllocate rem a b).tsumitateEligible + (nisaAllocate rem a b).growthEligible)
        + ((a - (nisaAllocate rem a b).tsumitateEligible)
            + (b - (nisaAllocate rem a b).growthEligible))
      = a + b := by
  have hcapT : 0 ≤ (effectiveCaps rem).tsumitate := effectiveCaps_tsumitate_nonneg ht
  have hcapG : 0 ≤ (effectiveCaps rem).growth := effectiveCaps_growth_nonneg hg ht
  have hcapTot : 0 ≤ (effectiveCaps rem).total := effectiveCaps_total_nonneg ht
  have htle : (nisaAllocate rem a b).tsumitateEligible ≤ (effectiveCaps rem).total :=
    nisaAllocate_t_le_total_cap rem a b
  have h1 : 0 ≤ (nisaAllocate rem a b).tsumitateEligible := by
    rw [nisaAllocate_t_eq]
    exact le_min ha (le_min hcapT hcapTot)
  have h2 : 0 ≤ (nisaAllocate rem a b).growthEligible := by
    rw [nisaAllocate_g_eq]
    exact le_min hb (le_min hcapG (by linarith))
  have h3 : (nisaAllocate rem a b).tsumitateEligible ≤ a := nisaAllocate_t_le_planned rem a b
  have h4 : (nisaAllocate rem a b).growthEligible ≤ b := nisaAllocate_g_le_planned rem a b
  exact ⟨h1, h2, by linarith, by ring⟩

/-- Witness for `allocation_conserves` at remaining room `(100, 200)` and
proposed `(5, 7)`. -/
theorem allocation_conserves_witness :
    ((nisaAllocate ⟨some 100, some 200⟩ 5 7).tsumitateEligible
          + (nisaAllocate ⟨some 100, some 200⟩ 5 7).growthEligible)
        + ((5 - (nisaAllocate ⟨some 100, some 200⟩ 5 7).tsumitateEligible)
            + (7 - (nisaAllocate ⟨some 100, some 200⟩ 5 7).growthEligible))
      = 5 + 7 :=
  (allocation_conserves ⟨some 100, some 200⟩ 5 7 (by norm_num) (by norm_num)
      (fun x hx => by simp only [Option.some.injEq] at hx; subst hx; norm_num)
      (fun x hx => by simp only [Option.some.injEq] at hx; subst hx; norm_num)).2.2.2

/-- C9.  When the lifetime remaining-room inputs are absent (`?? Infinity`),
the effective caps collapse to the static annual caps (1,200,000 / 2,400,000 /
3,600,000) and the eligible amounts are constrained only by those. -/
theorem absent_lifetime_rem (a b : ℚ) :
    effectiveCaps ⟨none, none⟩
        = ⟨ANNUAL_CAP_tsumitate, ANNUAL_CAP_growth, ANNUAL_CAP_total⟩ ∧
    (nisaAllocate ⟨none, none⟩ a b).tsumitateEligible = min a ANNUAL_CAP_tsumitate ∧
    (nisaAllocate ⟨none, none⟩ a b).growthEligible
        = min b (min ANNUAL_CAP_growth (ANNUAL_CAP_total - min a ANNUAL_CAP_tsumitate)) := by
  have hts : ANNUAL_CAP_tsumitate ≤ ANNUAL_CAP_total := by
    norm_num [ANNUAL_CAP_tsumitate, ANNUAL_CAP_total]
  refine ⟨rfl, ?_, ?_⟩
  · show min a (min ANNUAL_CAP_tsumitate ANNUAL_CAP_total) = min a ANNUAL_CAP_tsumitate
    rw [min_eq_left hts]
  · show min b (min ANNUAL_CAP_growth
          (ANNUAL_CAP_total - min a (min ANNUAL_CAP_tsumitate ANNUAL_CAP_total)))
        = min b (min ANNUAL_CAP_growth (ANNUAL_CAP_total - min a ANNUAL_CAP_tsumitate))
    rw [min_eq_left hts]

/-! ## Claim theorems: contribution derivation and validation -/

/-- C5.  The derived annual contribution of a plan is `amount × 12` for
`MONTHLY`, `amount × count(bonus months)` for `BONUS_MONTH`, and for `DAILY`
`amount × 365` when the cryptocurrency (high-frequency) flag holds, else
`amount × 245`. -/
theorem plan_annual_contribution (p : RecurringInvestmentPlan) :
    (p.frequency = .MONTHLY → planAnnualAmount p = p.amount_jpy * 12) ∧
    (p.frequency = .BONUS_MONTH →
      planAnnualAmount p = p.amount_jpy * (bonusCount p.bonus_months : ℚ)) ∧
    (p.frequency = .DAILY → isCrypto p = true → planAnnualAmount p = p.amount_jpy * 365) ∧
    (p.frequency = .DAILY → isCrypto p = false →
      planAnnualAmount p = p.amount_jpy * 245) := by
  refine ⟨fun h => ?_, fun h => ?_, fun h hc => ?_, fun h hc => ?_⟩
  · simp [planAnnualAmount, h]
  · simp [planAnnualAmount, h]
  · simp [planAnnualAmount, tradingDaysPerYear, h, hc]
  · simp [planAnnualAmount, tradingDaysPerYear, h, hc]

/-- Witness for `plan_annual_contribution`: a monthly 100,000-yen plan
contributes 1,200,000 a year. -/
theorem plan_annual_contribution_witness :
    planAnnualAmount
        ⟨.NISA_TSUMITATE, "MUTUAL_FUND", "DOMESTIC_STOCKS", .MONTHLY, 100000, none⟩
      = 100000 * 12 :=
  (plan_annual_contribution _).1 rfl

/-- C6.  Invalid inputs are rejected by validation before anything runs:
projection years outside `[1, 50]` or a return rate outside `[-100, 100]`
make the projection form submit nothing (so no projection is computed and no
partial result exists), and a plan with non-positive amount, an empty
bonus-month string, or a bonus month outside `[1, 12]` fails the plan form's
validation. -/
theorem validation_rejects_invalid :
    (∀ y r : ℚ, (y < 1 ∨ 50 < y) → handleProjectionSubmit y r = none) ∧
    (∀ y r : ℚ, (r < -100 ∨ 100 < r) → handleProjectionSubmit y r = none) ∧
    (∀ f : PlanFormData, f.amount_jpy ≤ 0 → validateForm f = false) ∧
    (∀ f : PlanFormData, isBonusFreq f.frequency = true → f.bonus_months = "" →
      validateForm f = false) ∧
    (∀ f : PlanFormData, isBonusFreq f.frequency = true →
      ∀ m ∈ splitOnComma f.bonus_months.data, ∀ v : ℤ,
        jsParseInt (jsTrim m) = some v → (v < 1 ∨ 12 < v) → validateForm f = false) := by
  refine ⟨fun y r h => ?_, fun y r h => ?_, fun f h => ?_, fun f h1 h2 => ?_,
    fun f h1 m hm v hv hr => ?_⟩
  · have hv : projectionParamsValid y r = false := by
      rcases h with h | h <;> simp [projectionParamsValid, h]
    simp [handleProjectionSubmit, hv]
  · have hv : projectionParamsValid y r = false := by
      rcases h with h | h <;> simp [projectionParamsValid, h]
    simp [handleProjectionSubmit, hv]
  · simp [validateForm, h]
  · simp [validateForm, h1, h2]
  · have hbad : bonusMonthOutOfRange f.bonus_months = true := by
      unfold bonusMonthOutOfRange
      rw [List.any_eq_true]
      refine ⟨jsParseInt (jsTrim m), List.mem_map_of_mem _ hm, ?_⟩
      rw [hv]
      simpa using hr
    simp [validateForm, h1, hbad]

/-- Witness for `validation_rejects_invalid`: a 0-year projection request
submits nothing. -/
theorem validation_rejects_invalid_witness :
    handleProjectionSubmit 0 5 = none :=
  validation_rejects_invalid.1 0 5 (Or.inl (by norm_num))

/-- C10.  The bonus-month count at the point of use splits the raw string on
commas and counts non-empty trimmed tokens, with no deduplication and no
range check: `"6,6"` counts 2, `"6, 6 ,6"` counts 3, the out-of-range
`"13,0"` still counts 2, and a `BONUS_MONTH` plan with months `"6,6"`
contributes its per-period amount twice. -/
theorem bonus_months_token_count :
    (∀ s : String, s ≠ "" →
      bonusCount (some s)
        = (((splitOnComma s.data).map jsTrim).filter (fun m => !m.isEmpty)).length) ∧
    bonusCount (some "6,6") = 2 ∧
    bonusCount (some "6, 6 ,6") = 3 ∧
    bonusCount (some "13,0") = 2 ∧
    (∀ p : RecurringInvestmentPlan, p.frequency = .BONUS_MONTH →
      p.bonus_months = some "6,6" → planAnnualAmount p = p.amount_jpy * 2) := by
  refine ⟨fun s hs => ?_, by decide, by decide, by decide, fun p h1 h2 => ?_⟩
  · simp [bonusCount, hs]
  · have hc : bonusCount (some "6,6") = 2 := by decide
    simp [planAnnualAmount, h1, h2, hc]

/-- Witness for `bonus_months_token_count`: a bonus plan on months `"6,6"`
with per-period amount 200,000 contributes 400,000. -/
theorem bonus_months_token_count_witness :
    planAnnualAmount
        ⟨.NISA_GROWTH, "MUTUAL_FUND", "DOMESTIC_STOCKS", .BONUS_MONTH, 200000, some "6,6"⟩
      = 200000 * 2 :=
  bonus_months_token_count.2.2.2.2 _ rfl rfl

/-! ## Projection-engine lemmas (shared) -/

theorem alloc_g_le_lifetime (l : Ledger) (a b : ℚ) :
    (nisaAllocate (ledgerRem l) a b).growthEligible
      ≤ LIFETIME_CAP_growth - l.usedGrowth := by
  have h := nisaAllocate_g_le_cap (ledgerRem l) a b
  have h2 : (effectiveCaps (ledgerRem l)).growth ≤ LIFETIME_CAP_growth - l.usedGrowth := by
    show min (min ANNUAL_CAP_growth (LIFETIME_CAP_growth - l.usedGrowth))
        (LIFETIME_CAP_total - l.usedTotal) ≤ LIFETIME_CAP_growth - l.usedGrowth
    exact le_trans (min_le_left _ _) (min_le_right _ _)
  linarith

theorem alloc_sum_le_lifetime (l : Ledger) (a b : ℚ) :
    (nisaAllocate (ledgerRem l) a b).tsumitateEligible
        + (nisaAllocate (ledgerRem l) a b).growthEligible
      ≤ LIFETIME_CAP_total - l.usedTotal := by
  have h := nisaAllocate_sum_le_total_cap (ledgerRem l) a b
  have h2 : (effectiveCaps (ledgerRem l)).total ≤ LIFETIME_CAP_total - l.usedTotal := by
    show min ANNUAL_CAP_total (LIFETIME_CAP_total - l.usedTotal)
        ≤ LIFETIME_CAP_total - l.usedTotal
    exact min_le_right _ _
  linarith

theorem runYears_succ_fst (plans : List RecurringInvestmentPlan) (rate : ℚ) (n yr : ℕ)
    (bal : ℚ) (l : Ledger) :
    (runYears plans rate (n + 1) yr bal l).1
      = (projStep plans rate yr bal l).1
          :: (runYears plans rate n (yr + 1) (projStep plans rate yr bal l).2.1
                (projStep plans rate yr bal l).2.2).1 := rfl

theorem runYears_succ_snd (plans : List RecurringInvestmentPlan) (rate : ℚ) (n yr : ℕ)
    (bal : ℚ) (l : Ledger) :
    (runYears plans rate (n + 1) yr bal l).2
      = (runYears plans rate n (yr + 1) (projStep plans rate yr bal l).2.1
            (projStep plans rate yr bal l).2.2).2 := rfl

theorem runProjection_records (plans : List RecurringInvestmentPlan) (s : ℚ) (n : ℕ)
    (rate : ℚ) (l : Ledger) :
    (runProjection plans s n rate l).yearRecords = (runYears plans rate n 1 s l).1 := rfl

theorem projStep_caps (plans : List RecurringInvestmentPlan) (rate : ℚ) (yr : ℕ)
    (bal : ℚ) (l : Ledger) :
    (projStep plans rate yr bal l).1.tsumitateUsed
        ≤ (projStep plans rate yr bal l).1.capTsumitate ∧
    (projStep plans rate yr bal l).1.growthUsed
        ≤ (projStep plans rate yr bal l).1.capGrowth ∧
    (projStep plans rate yr bal l).1.tsumitateUsed
        + (projStep plans rate yr bal l).1.growthUsed
        ≤ (projStep plans rate yr bal l).1.capTotal ∧
    (projStep plans rate yr bal l).1.lifetimeGrowthUsed ≤ LIFETIME_CAP_growth ∧
    (projStep plans rate yr bal l).1.lifetimeTotalUsed ≤ LIFETIME_CAP_total := by
  refine ⟨?_, ?_, ?_, ?_, ?_⟩
  · show (nisaAllocate (ledgerRem l) (annualPlanTsumitate plans)
          (annualPlanGrowth plans)).tsumitateEligible
        ≤ (effectiveCaps (ledgerRem l)).tsumitate
    exact nisaAllocate_t_le_cap _ _ _
  · show (nisaAllocate (ledgerRem l) (annualPlanTsumitate plans)
          (annualPlanGrowth plans)).growthEligible
        ≤ (effectiveCaps (ledgerRem l)).growth
    exact nisaAllocate_g_le_cap _ _ _
  · show (nisaAllocate (ledgerRem l) (annualPlanTsumitate plans)
            (annualPlanGrowth plans)).tsumitateEligible
          + (nisaAllocate (ledgerRem l) (annualPlanTsumitate plans)
              (annualPlanGrowth plans)).growthEligible
        ≤ (effectiveCaps (ledgerRem l)).total
    exact nisaAllocate_sum_le_total_cap _ _ _
  · have hg := alloc_g_le_lifetime l (annualPlanTsumitate plans) (annualPlanGrowth plans)
    show l.usedGrowth
        + (nisaAllocate (ledgerRem l) (annualPlanTsumitate plans)
            (annualPlanGrowth plans)).growthEligible
      ≤ LIFETIME_CAP_growth
    linarith
  · have hs := alloc_sum_le_lifetime l (annualPlanTsumitate plans) (annualPlanGrowth plans)
    show l.usedTotal
        + ((nisaAllocate (ledgerRem l) (annualPlanTsumitate plans)
              (annualPlanGrowth plans)).tsumitateEligible
            + (nisaAllocate (ledgerRem l) (annualPlanTsumitate plans)
                (annualPlanGrowth plans)).growthEligible)
      ≤ LIFETIME_CAP_total
    linarith

theorem runYears_caps (plans : List RecurringInvestmentPlan) (rate : ℚ) :
    ∀ (n yr : ℕ) (bal : ℚ) (l : Ledger),
      ∀ r ∈ (runYears plans rate n yr bal l).1,
        r.tsumitateUsed ≤ r.capTsumitate ∧ r.growthUsed ≤ r.capGrowth ∧
        r.tsumitateUsed + r.growthUsed ≤ r.capTotal ∧
        r.lifetimeGrowthUsed ≤ LIFETIME_CAP_growth ∧
        r.lifetimeTotalUsed ≤ LIFETIME_CAP_total := by
  intro n
  induction n with
  | zero => intro yr bal l r hr; simp [runYears] at hr
  | succ n ih =>
    intro yr bal l r hr
    rw [runYears_succ_fst] at hr
    rcases List.mem_cons.mp hr with h | h
    · subst h; exact projStep_caps plans rate yr bal l
    · exact ih (yr + 1) _ _ r h

theorem projStep_identities (plans : List RecurringInvestmentPlan) (rate : ℚ) (yr : ℕ)
    (bal : ℚ) (l : Ledger) :
    (projStep plans rate yr bal l).1.balanceBeforeGrowth
        = (projStep plans rate yr bal l).1.startingBalance
            + (projStep plans rate yr bal l).1.contributions ∧
    (projStep plans rate yr bal l).1.endingBalance
        = (projStep plans rate yr bal l).1.balanceBeforeGrowth * (1 + rate) ∧
    (projStep plans rate yr bal l).1.interestEarned
        = (projStep plans rate yr bal l).1.endingBalance
            - (projStep plans rate yr bal l).1.balanceBeforeGrowth :=
  ⟨rfl, rfl, rfl⟩

theorem projStep_ending_eq (plans : List RecurringInvestmentPlan) (rate : ℚ) (yr : ℕ)
    (bal : ℚ) (l : Ledger) :
    (projStep plans rate yr bal l).2.1 = (projStep plans rate yr bal l).1.endingBalance := rfl

theorem runYears_identities (plans : List RecurringInvestmentPlan) (rate : ℚ) :
    ∀ (n yr : ℕ) (bal : ℚ) (l : Ledger),
      ∀ r ∈ (runYears plans rate n yr bal l).1,
        r.balanceBeforeGrowth = r.startingBalance + r.contributions ∧
        r.endingBalance = r.balanceBeforeGrowth * (1 + rate) ∧
        r.interestEarned = r.endingBalance - r.balanceBeforeGrowth := by
  intro n
  induction n with
  | zero => intro yr bal l r hr; simp [runYears] at hr
  | succ n ih =>
    intro yr bal l r hr
    rw [runYears_succ_fst] at hr
    rcases List.mem_cons.mp hr with h | h
    · subst h; exact projStep_identities plans rate yr bal l
    · exact ih (yr + 1) _ _ r h

theorem runYears_head_start (plans : List RecurringInvestmentPlan) (rate : ℚ) :
    ∀ (n yr : ℕ) (bal : ℚ) (l : Ledger) (r : YearRecord),
      (runYears plans rate n yr bal l).1.head? = some r → r.startingBalance = bal := by
  intro n
  cases n with
  | zero => intro yr bal l r h; simp [runYears] at h
  | succ n =>
    intro yr bal l r h
    rw [runYears_succ_fst] at h
    simp only [List.head?_cons, Option.some.injEq] at h
    subst h; rfl

theorem runYears_chain (plans : List RecurringInvestmentPlan) (rate : ℚ) :
    ∀ (n yr : ℕ) (bal : ℚ) (l : Ledger),
      List.Chain' (fun p q => q.startingBalance = p.endingBalance)
        (runYears plans rate n yr bal l).1 := by
  intro n
  induction n with
  | zero => intro yr bal l; simp [runYears]
  | succ n ih =>
    intro yr bal l
    rw [runYears_succ_fst, List.chain'_cons']
    refine ⟨fun b hb => ?_, ih _ _ _⟩
    rw [Option.mem_def] at hb
    have hb2 := runYears_head_start plans rate n (yr + 1)
      (projStep plans rate yr bal l).2.1 (projStep plans rate yr bal l).2.2 b hb
    rw [hb2, projStep_ending_eq]

/-! ## Claim theorems: projection engine -/

/-- C3.  For every projected year: the credited annual usage of each bucket
stays within that bucket's effective annual cap, the combined credited usage
stays within the effective annual total cap, and the cumulative lifetime
usage stays within the lifetime caps (growth 12,000,000 and total 18,000,000,
the only lifetime caps defined). -/
theorem projection_caps_invariant (plans : List RecurringInvestmentPlan) (s rate : ℚ)
    (n : ℕ) (l : Ledger) :
    ∀ r ∈ (runProjection plans s n rate l).yearRecords,
      r.tsumitateUsed ≤ r.capTsumitate ∧ r.growthUsed ≤ r.capGrowth ∧
      r.tsumitateUsed + r.growthUsed ≤ r.capTotal ∧
      r.lifetimeGrowthUsed ≤ LIFETIME_CAP_growth ∧
      r.lifetimeTotalUsed ≤ LIFETIME_CAP_total := by
  intro r hr
  rw [runProjection_records] at hr
  exact runYears_caps plans rate n 1 s l r hr

/-- Witness for `projection_caps_invariant`: the single year of an empty
one-year projection respects every cap. -/
theorem projection_caps_invariant_witness :
    (projStep [] 0 1 0 ⟨0, 0⟩).1.tsumitateUsed
        ≤ (projStep [] 0 1 0 ⟨0, 0⟩).1.capTsumitate ∧
    (projStep [] 0 1 0 ⟨0, 0⟩).1.growthUsed
        ≤ (projStep [] 0 1 0 ⟨0, 0⟩).1.capGrowth ∧
    (projStep [] 0 1 0 ⟨0, 0⟩).1.tsumitateUsed + (projStep [] 0 1 0 ⟨0, 0⟩).1.growthUsed
        ≤ (projStep [] 0 1 0 ⟨0, 0⟩).1.capTotal ∧
    (projStep [] 0 1 0 ⟨0, 0⟩).1.lifetimeGrowthUsed ≤ LIFETIME_CAP_growth ∧
    (projStep [] 0 1 0 ⟨0, 0⟩).1.lifetimeTotalUsed ≤ LIFETIME_CAP_total :=
  projection_caps_invariant [] 0 0 1 ⟨0, 0⟩ _
    (by rw [runProjection_records]; exact List.mem_cons_self _ _)

/-- C4.  For every projected year, `balanceBeforeGrowth = startingBalance +
total credited contributions` (overflow included), `endingBalance =
balanceBeforeGrowth × (1 + rate)` exactly, `interestEarned = endingBalance −
balanceBeforeGrowth`, and each following year starts from the previous year's
ending balance (annual compounding only). -/
theorem projection_growth_identities (plans : List RecurringInvestmentPlan) (s rate : ℚ)
    (n : ℕ) (l : Ledger) :
    (∀ r ∈ (runProjection plans s n rate l).yearRecords,
        r.balanceBeforeGrowth = r.startingBalance + r.contributions ∧
        r.endingBalance = r.balanceBeforeGrowth * (1 + rate) ∧
        r.interestEarned = r.endingBalance - r.balanceBeforeGrowth) ∧
    List.Chain' (fun p q => q.startingBalance = p.endingBalance)
        (runProjection plans s n rate l).yearRecords := by
  constructor
  · intro r hr
    rw [runProjection_records] at hr
    exact runYears_identities plans rate n 1 s l r hr
  · rw [runProjection_records]
    exact runYears_chain plans rate n 1 s l

/-- Witness for `projection_growth_identities`: the first year of a one-year
projection from balance 1. -/
theorem projection_growth_identities_witness :
    (projStep [] 0 1 1 ⟨0, 0⟩).1.balanceBeforeGrowth
      = (projStep [] 0 1 1 ⟨0, 0⟩).1.startingBalance
          + (projStep [] 0 1 1 ⟨0, 0⟩).1.contributions :=
  ((projection_growth_identities [] 1 0 1 ⟨0, 0⟩).1 _
      (by rw [runProjection_records]; exact List.mem_cons_self _ _)).1

theorem projStep_nil_contrib (rate : ℚ) (yr : ℕ) (bal : ℚ) (l : Ledger) :
    (projStep [] rate yr bal l).1.contributions = 0 := by
  show (nisaAllocate (ledgerRem l) 0 0).totalEligible
      + ((0 - (nisaAllocate (ledgerRem l) 0 0).tsumitateEligible)
          + (0 - (nisaAllocate (ledgerRem l) 0 0).growthEligible)) + 0 = 0
  rw [nisaAllocate_total_eq]
  ring

theorem projStep_nil_ending (rate : ℚ) (yr : ℕ) (bal : ℚ) (l : Ledger) :
    (projStep [] rate yr bal l).2.1 = bal * (1 + rate) := by
  show (bal + (projStep [] rate yr bal l).1.contributions) * (1 + rate) = bal * (1 + rate)
  rw [projStep_nil_contrib]
  ring

theorem runYears_nil (rate : ℚ) :
    ∀ (n yr : ℕ) (bal : ℚ) (l : Ledger),
      (runYears [] rate n yr bal l).2.1 = bal * (1 + rate) ^ n ∧
      ∀ r ∈ (runYears [] rate n yr bal l).1, r.contributions = 0 := by
  intro n
  induction n with
  | zero =>
    intro yr bal l
    refine ⟨by show bal = bal * (1 + rate) ^ 0; rw [pow_zero, mul_one], ?_⟩
    intro r hr; simp [runYears] at hr
  | succ n ih =>
    intro yr bal l
    constructor
    · rw [runYears_succ_snd,
        (ih (yr + 1) (projStep [] rate yr bal l).2.1 (projStep [] rate yr bal l).2.2).1,
        projStep_nil_ending]
      ring
    · intro r hr
      rw [runYears_succ_fst] at hr
      rcases List.mem_cons.mp hr with h | h
      · subst h; exact projStep_nil_contrib rate yr bal l
      · exact (ih (yr + 1) _ _).2 r h

/-- C8.  With zero recurring plans a projection is pure compound growth:
the final value is `startingBalance × (1 + rate) ^ years` and the total
contributions are 0. -/
theorem zero_plans_pure_compound (s rate : ℚ) (n : ℕ) (l : Ledger) :
    (runProjection [] s n rate l).finalValue = s * (1 + rate) ^ n ∧
    (runProjection [] s n rate l).totalContributions = 0 := by
  constructor
  · show (runYears [] rate n 1 s l).2.1 = s * (1 + rate) ^ n
    exact (runYears_nil rate n 1 s l).1
  · show ((runYears [] rate n 1 s l).1.map YearRecord.contributions).sum = 0
    apply List.sum_eq_zero
    intro x hx
    rcases List.mem_map.mp hx with ⟨r, hr, hxr⟩
    rw [← hxr]
    exact (runYears_nil rate n 1 s l).2 r hr

end StockApp
